import Mathlib

/-!
Shallow embedding of `auth/auth.go` from the hamilton repository.

The file embeds the authorizer-selection logic (`Config.NewAuthorizer`), the
endpoint/scope/resource derivation (`endpoint`, `scopes`, `resource`) and the
three authorizer constructors.  External collaborators (file system,
`pkcs12.Decode`, `x509.MarshalPKCS1PrivateKey`, `NewAzureCliConfig`) are
modelled as an explicit `World` of oracles, so that the pure selection and
error-wrapping logic of the source can be stated and proved exactly.
-/

namespace Hamilton

/-- `type TokenVersion int` with constants `TokenVersion2 = iota` (0) and
`TokenVersion1` (1), from auth.go lines 18-23. -/
inductive TokenVersion where
  | TokenVersion2 : TokenVersion
  | TokenVersion1 : TokenVersion
deriving DecidableEq, Repr

/-- `type Api int` with constants `MsGraph = iota` (0) and `AadGraph` (1),
from auth.go lines 70-75. -/
inductive Api where
  | MsGraph : Api
  | AadGraph : Api
deriving DecidableEq, Repr

/-- Modelled from the spec: the `environments` package is an external
lookup table ("Environment Registry").  Each API surface carries a base
endpoint string; this mirrors the fields `env.MsGraph.Endpoint` and
`env.AadGraph.Endpoint` read by `scopes` and `resource`. -/
structure ApiEndpoints where
  Endpoint : String
deriving DecidableEq, Repr

/-- Modelled from the spec: an environment maps to per-API base endpoints and
the AD authentication base URL (`env.AzureADEndpoint`). -/
structure Environment where
  AzureADEndpoint : String
  MsGraph : ApiEndpoints
  AadGraph : ApiEndpoints
deriving DecidableEq, Repr

/-- `type Config struct`, auth.go lines 25-63.  Field order and names follow
the source. -/
structure Config where
  Environment : Environment
  Version : TokenVersion
  TenantID : String
  ClientID : String
  EnableAzureCliToken : Bool
  EnableMsiAuth : Bool
  MsiEndpoint : String
  EnableClientCertAuth : Bool
  ClientCertPath : String
  ClientCertPassword : String
  EnableClientSecretAuth : Bool
  ClientSecret : String
deriving DecidableEq, Repr

/-- `microsoft.AuthType`: the two auth types used by auth.go
(`microsoft.AuthTypeAssertion`, `microsoft.AuthTypeSecret`). -/
inductive AuthType where
  | AuthTypeAssertion : AuthType
  | AuthTypeSecret : AuthType
deriving DecidableEq, Repr

/-- Modelled from the spec: `microsoft.Config`, the token-source
configuration filled in by the certificate and secret constructors.  Only the
fields assigned in auth.go appear; unassigned fields keep Go zero values. -/
structure MicrosoftConfig where
  ClientID : String := ""
  ClientSecret : String := ""
  PrivateKey : List Nat := []
  Certificate : List Nat := []
  Scopes : List String := []
  TokenURL : String := ""
  Resource : String := ""
deriving DecidableEq, Repr

/-- Modelled from the spec: the configuration produced by
`NewAzureCliConfig(api, tenantId)` (code of this repository outside
auth.go); the CLI adapter "selects the correct scope/tenant". -/
structure AzureCliConfig where
  Api : Api
  TenantID : String
deriving DecidableEq, Repr

/-- An abstract `*rsa.PrivateKey` value returned by `pkcs12.Decode`. -/
structure RsaKey where
  id : Nat
deriving DecidableEq, Repr

/-- The dynamic type of the private key found in a PKCS#12 store: either an
RSA key (the type assertion `key.(*rsa.PrivateKey)` succeeds) or not. -/
inductive Pkcs12Key where
  | rsa : RsaKey → Pkcs12Key
  | nonRsa : Pkcs12Key
deriving DecidableEq, Repr

/-- The successful result of `pkcs12.Decode`: a private key and a
certificate whose `Raw` DER bytes are `certRaw`. -/
structure Pkcs12Decoded where
  key : Pkcs12Key
  certRaw : List Nat
deriving DecidableEq, Repr

/-- `Authorizer` values produced by the constructors in auth.go: either a
`microsoft.Config` token source (certificate or secret method) or an Azure
CLI token source.  A constructed adapter is always a value, hence non-nil. -/
inductive Authorizer where
  | microsoft : MicrosoftConfig → AuthType → Authorizer
  | azureCli : AzureCliConfig → Authorizer
deriving DecidableEq, Repr

/-- The external collaborators of auth.go, as oracles: `ioutil.ReadFile`,
`pkcs12.Decode`, `x509.MarshalPKCS1PrivateKey` and `NewAzureCliConfig`.
Errors are carried as their message strings. -/
structure World where
  readFile : String → Except String (List Nat)
  pkcs12Decode : List Nat → String → Except String Pkcs12Decoded
  marshalPKCS1PrivateKey : RsaKey → List Nat
  newAzureCliConfig : Api → String → Except String AzureCliConfig

/-- Go `unicode.IsSpace` restricted to the Latin-1 range, which is what
`strings.TrimSpace` tests for ASCII and Latin-1 input: `'\t'`, `'\n'`,
vertical tab, form feed, `'\r'`, `' '`, U+0085, U+00A0.  (Non-Latin-1
Unicode white space is not modelled; no claim depends on it.) -/
def goIsSpace (c : Char) : Bool :=
  c = ' ' || c = '\t' || c = '\n' || c = Char.ofNat 0x0B || c = Char.ofNat 0x0C ||
    c = '\r' || c = Char.ofNat 0x85 || c = Char.ofNat 0xA0

/-- `strings.TrimSpace`: drop leading and trailing white space. -/
def trimSpace (s : String) : String :=
  String.mk (((s.toList.dropWhile goIsSpace).reverse.dropWhile goIsSpace).reverse)

/-- `func endpoint(endpoint AzureADEndpoint, tenant string, version TokenVersion) string`,
auth.go lines 176-186: substitute `"common"` when `tenant == ""` (exact
emptiness, no trimming), build `{base}/{tenant}/oauth2`, insert `/v2.0` for
`TokenVersion2`, append `/token`. -/
def endpoint (adEndpoint : String) (tenant : String) (version : TokenVersion) : String :=
  let tenant := if tenant = "" then "common" else tenant
  let e := adEndpoint ++ "/" ++ tenant ++ "/oauth2"
  let e := if version = TokenVersion.TokenVersion2 then e ++ "/" ++ "v2.0" else e
  e ++ "/token"

/-- `func scopes(env environments.Environment, api Api) []string`,
auth.go lines 188-196. -/
def scopes (env : Environment) (api : Api) : List String :=
  match api with
  | Api.MsGraph => [env.MsGraph.Endpoint ++ "/.default"]
  | Api.AadGraph => [env.AadGraph.Endpoint ++ "/.default"]

/-- `func resource(env environments.Environment, api Api) string`,
auth.go lines 198-206. -/
def resource (env : Environment) (api : Api) : String :=
  match api with
  | Api.MsGraph => env.MsGraph.Endpoint ++ "/"
  | Api.AadGraph => env.AadGraph.Endpoint ++ "/"

/-- `func NewClientCertificateAuthorizer(...)`, auth.go lines 132-160.
Returns the Go pair `(Authorizer, error)` as `Option Authorizer × Option
String`.  `%q` formatting of the path is modelled as plain double-quoting
(exact for paths without characters needing escape). -/
def NewClientCertificateAuthorizer (w : World) (environment : Environment) (api : Api)
    (tokenVersion : TokenVersion) (tenantId clientId pfxPath pfxPass : String) :
    Option Authorizer × Option String :=
  match w.readFile pfxPath with
  | Except.error err =>
      (none, some ("could not read pkcs12 store at \"" ++ pfxPath ++ "\": " ++ err))
  | Except.ok pfx =>
    match w.pkcs12Decode pfx pfxPass with
    | Except.error err =>
        (none, some ("could not decode pkcs12 credential store: " ++ err))
    | Except.ok decoded =>
      match decoded.key with
      | Pkcs12Key.nonRsa =>
          (none, some ("unsupported non-rsa key was found in pkcs12 store \"" ++ pfxPath ++ "\""))
      | Pkcs12Key.rsa priv =>
        let conf : MicrosoftConfig :=
          { ClientID := clientId
            PrivateKey := w.marshalPKCS1PrivateKey priv
            Certificate := decoded.certRaw
            Scopes := scopes environment api
            TokenURL := endpoint environment.AzureADEndpoint tenantId tokenVersion
            Resource := if tokenVersion = TokenVersion.TokenVersion1 then resource environment api else "" }
        (some (Authorizer.microsoft conf AuthType.AuthTypeAssertion), none)

/-- `func NewClientSecretAuthorizer(...)`, auth.go lines 162-174.  The
construction is pure and always succeeds. -/
def NewClientSecretAuthorizer (environment : Environment) (api : Api)
    (tokenVersion : TokenVersion) (tenantId clientId clientSecret : String) :
    Option Authorizer × Option String :=
  let conf : MicrosoftConfig :=
    { ClientID := clientId
      ClientSecret := clientSecret
      Scopes := scopes environment api
      TokenURL := endpoint environment.AzureADEndpoint tenantId tokenVersion
      Resource := if tokenVersion = TokenVersion.TokenVersion1 then resource environment api else "" }
  (some (Authorizer.microsoft conf AuthType.AuthTypeSecret), none)

/-- `func NewAzureCliAuthorizer(ctx, api, tenantId)`, auth.go lines 123-130:
build a CLI config (external collaborator) and return its token source. -/
def NewAzureCliAuthorizer (newAzureCliConfig : Api → String → Except String AzureCliConfig)
    (api : Api) (tenantId : String) : Option Authorizer × Option String :=
  match newAzureCliConfig api tenantId with
  | Except.error err => (none, some err)
  | Except.ok conf => (some (Authorizer.azureCli conf), none)

/-- The secret-then-CLI tail of `Config.NewAuthorizer` (auth.go lines
100-120), reached when the certificate branch is not taken or falls
through.  It depends only on the `NewAzureCliConfig` oracle, never on the
file-system or PKCS#12 oracles. -/
def Config.authorizerTail (newAzureCliConfig : Api → String → Except String AzureCliConfig)
    (c : Config) (api : Api) : Option Authorizer × Option String :=
  if c.EnableClientSecretAuth = true ∧ trimSpace c.TenantID ≠ "" ∧
      trimSpace c.ClientID ≠ "" ∧ trimSpace c.ClientSecret ≠ "" then
    match NewClientSecretAuthorizer c.Environment api c.Version c.TenantID c.ClientID c.ClientSecret with
    | (_, some err) => (none, some ("could not configure ClientCertificate Authorizer: " ++ err))
    | (some a, none) => (some a, none)
    | (none, none) =>
      if c.EnableAzureCliToken = true then
        match NewAzureCliAuthorizer newAzureCliConfig api c.TenantID with
        | (_, some err) => (none, some ("could not configure AzureCli Authorizer: " ++ err))
        | (some a, none) => (some a, none)
        | (none, none) =>
            (none, some "no Authorizer could be configured, please check your configuration")
      else (none, some "no Authorizer could be configured, please check your configuration")
  else
    if c.EnableAzureCliToken = true then
      match NewAzureCliAuthorizer newAzureCliConfig api c.TenantID with
      | (_, some err) => (none, some ("could not configure AzureCli Authorizer: " ++ err))
      | (some a, none) => (some a, none)
      | (none, none) =>
          (none, some "no Authorizer could be configured, please check your configuration")
    else (none, some "no Authorizer could be configured, please check your configuration")

/-- `func (c *Config) NewAuthorizer(ctx, api)`, auth.go lines 89-121: the
precedence-ordered selector.  Each Go branch `a, err := ...; if err != nil
{ return nil, wrap(err) }; if a != nil { return a, nil }` is a three-way
match; on `(nil, nil)` control falls through to the next branch. -/
def Config.NewAuthorizer (w : World) (c : Config) (api : Api) :
    Option Authorizer × Option String :=
  if c.EnableClientCertAuth = true ∧ trimSpace c.TenantID ≠ "" ∧
      trimSpace c.ClientID ≠ "" ∧ trimSpace c.ClientCertPath ≠ "" then
    match NewClientCertificateAuthorizer w c.Environment api c.Version c.TenantID c.ClientID c.ClientCertPath c.ClientCertPassword with
    | (_, some err) => (none, some ("could not configure ClientCertificate Authorizer: " ++ err))
    | (some a, none) => (some a, none)
    | (none, none) => Config.authorizerTail w.newAzureCliConfig c api
  else Config.authorizerTail w.newAzureCliConfig c api

/-- The API base endpoint of a target, as read by `scopes` and `resource`
(`env.MsGraph.Endpoint` resp. `env.AadGraph.Endpoint`); used to state
properties of the derived scope list and resource string. -/
def apiBaseEndpoint (env : Environment) (api : Api) : String :=
  match api with
  | Api.MsGraph => env.MsGraph.Endpoint
  | Api.AadGraph => env.AadGraph.Endpoint

/-- The `Resource` field of the `microsoft.Config` underlying an
authorizer, when it has one. -/
def Authorizer.resourceField : Authorizer → Option String
  | Authorizer.microsoft conf _ => some conf.Resource
  | Authorizer.azureCli _ => none

/-- C3: the derived token URL is `{adBase}/{tenant}/oauth2/token` for v1 and
`{adBase}/{tenant}/oauth2/v2.0/token` for v2, with the literal `"common"`
as tenant when the tenant argument is empty; including the two concrete
examples from the spec. -/
theorem spec_C3 :
    (∀ ad t : String, endpoint ad t TokenVersion.TokenVersion1 =
      ad ++ "/" ++ (if t = "" then "common" else t) ++ "/oauth2/token") ∧
    (∀ ad t : String, endpoint ad t TokenVersion.TokenVersion2 =
      ad ++ "/" ++ (if t = "" then "common" else t) ++ "/oauth2/v2.0/token") ∧
    endpoint "https://login.example/adtenant" "" TokenVersion.TokenVersion2 =
      "https://login.example/adtenant/common/oauth2/v2.0/token" ∧
    endpoint "https://login.example/adtenant" "t1" TokenVersion.TokenVersion1 =
      "https://login.example/adtenant/t1/oauth2/token" := by
  refine ⟨fun ad t => ?_, fun ad t => ?_, by decide, by decide⟩
  · simp [endpoint, String.append_assoc]
  · simp [endpoint, String.append_assoc]

/-- C8 counterexample: the whitespace-only tenant `" "` is blank in the
spec's sense (`trimSpace " " = ""`), yet `endpoint` uses it verbatim and
does not substitute `"common"`. -/
theorem spec_C8_counterexample :
    trimSpace " " = "" ∧
    endpoint "https://login.example/adtenant" " " TokenVersion.TokenVersion2 =
      "https://login.example/adtenant/ /oauth2/v2.0/token" ∧
    endpoint "https://login.example/adtenant" " " TokenVersion.TokenVersion2 ≠
      "https://login.example/adtenant/common/oauth2/v2.0/token" :=
  ⟨by decide, by decide, by decide⟩

/-- C8 amended: the literal `"common"` is substituted exactly when the
tenant argument is the empty string; any other tenant — including a
whitespace-only one — is used verbatim in the token URL. -/
theorem spec_C8_amended (ad t : String) (ver : TokenVersion) :
    endpoint ad t ver =
      ad ++ "/" ++ (if t = "" then "common" else t) ++
        (if ver = TokenVersion.TokenVersion2 then "/oauth2/v2.0" else "/oauth2") ++ "/token" := by
  cases ver <;> simp [endpoint, String.append_assoc]

/-- C4: for every environment and recognized Api target the scope list is
exactly the singleton `{apiBaseEndpoint}/.default`, and the token-source
configuration built by the secret authorizer carries the legacy resource
string `{endpoint}/` exactly when the token version is v1 (otherwise the
Go zero value `""`). -/
theorem spec_C4 (env : Environment) (api : Api) (ver : TokenVersion) (t cid sec : String) :
    scopes env api = [apiBaseEndpoint env api ++ "/.default"] ∧
    ((NewClientSecretAuthorizer env api ver t cid sec).1.bind Authorizer.resourceField) =
      some (if ver = TokenVersion.TokenVersion1 then apiBaseEndpoint env api ++ "/" else "") := by
  refine ⟨?_, ?_⟩ <;> cases api <;> cases ver <;> rfl

/-- C10: managed-identity settings are dead configuration — changing
`EnableMsiAuth` and/or `MsiEndpoint` (all other fields equal) never changes
the result of `NewAuthorizer`, for any world and Api target. -/
theorem spec_C10 (w : World) (c : Config) (api : Api) (b : Bool) (m : String) :
    Config.NewAuthorizer w { c with EnableMsiAuth := b, MsiEndpoint := m } api =
      Config.NewAuthorizer w c api := rfl

/-- Every result of the certificate constructor is an error with no
authorizer or an authorizer with no error; `(none, none)` is impossible. -/
lemma cert_result_shape (w : World) (env : Environment) (api : Api) (ver : TokenVersion)
    (t cid path pass : String) :
    (∃ e, NewClientCertificateAuthorizer w env api ver t cid path pass = (none, some e)) ∨
    (∃ a, NewClientCertificateAuthorizer w env api ver t cid path pass = (some a, none)) := by
  cases hr : w.readFile path with
  | error err =>
    refine Or.inl ⟨"could not read pkcs12 store at \"" ++ path ++ "\": " ++ err, ?_⟩
    simp [NewClientCertificateAuthorizer, hr]
  | ok pfx =>
    cases hd : w.pkcs12Decode pfx pass with
    | error err =>
      refine Or.inl ⟨"could not decode pkcs12 credential store: " ++ err, ?_⟩
      simp [NewClientCertificateAuthorizer, hr, hd]
    | ok d =>
      cases hk : d.key with
      | nonRsa =>
        refine Or.inl ⟨"unsupported non-rsa key was found in pkcs12 store \"" ++ path ++ "\"", ?_⟩
        simp [NewClientCertificateAuthorizer, hr, hd, hk]
      | rsa priv =>
        refine Or.inr ⟨Authorizer.microsoft
          { ClientID := cid
            PrivateKey := w.marshalPKCS1PrivateKey priv
            Certificate := d.certRaw
            Scopes := scopes env api
            TokenURL := endpoint env.AzureADEndpoint t ver
            Resource := if ver = TokenVersion.TokenVersion1 then resource env api else "" }
          AuthType.AuthTypeAssertion, ?_⟩
        simp [NewClientCertificateAuthorizer, hr, hd, hk]

/-- Every result of the secret-then-CLI tail has no authorizer or no error. -/
lemma authorizerTail_one_none (f : Api → String → Except String AzureCliConfig)
    (c : Config) (api : Api) :
    (Config.authorizerTail f c api).1 = none ∨ (Config.authorizerTail f c api).2 = none := by
  unfold Config.authorizerTail NewAzureCliAuthorizer
  repeat' split
  all_goals first | (left; rfl) | (right; rfl)

/-- Every result of `NewAuthorizer` has no authorizer or no error. -/
lemma newAuthorizer_one_none (w : World) (c : Config) (api : Api) :
    (Config.NewAuthorizer w c api).1 = none ∨ (Config.NewAuthorizer w c api).2 = none := by
  unfold Config.NewAuthorizer
  split
  · split
    · left; rfl
    · right; rfl
    · exact authorizerTail_one_none _ _ _
  · exact authorizerTail_one_none _ _ _

/-- The certificate branch of the selector (auth.go lines 90-98) on its
own: its outcome is determined entirely by the certificate method's
inputs — the secret and CLI fields do not occur.  (The `(none, none)`
arm is unreachable by `cert_result_shape`.) -/
def certSelection (w : World) (c : Config) (api : Api) : Option Authorizer × Option String :=
  match NewClientCertificateAuthorizer w c.Environment api c.Version c.TenantID c.ClientID c.ClientCertPath c.ClientCertPassword with
  | (_, some err) => (none, some ("could not configure ClientCertificate Authorizer: " ++ err))
  | (some a, none) => (some a, none)
  | (none, none) => (none, none)

theorem spec_C1 (w : World) (c : Config) (api : Api)
    (hEnable : c.EnableClientCertAuth = true)
    (hTenant : trimSpace c.TenantID ≠ "")
    (hClient : trimSpace c.ClientID ≠ "")
    (hPath : trimSpace c.ClientCertPath ≠ "") :
    Config.NewAuthorizer w c api = certSelection w c api ∧
    ∀ (enableSecret enableCli : Bool) (secret : String),
      Config.NewAuthorizer w
        { c with EnableClientSecretAuth := enableSecret, ClientSecret := secret,
                 EnableAzureCliToken := enableCli } api = certSelection w c api := by
  have hshape := cert_result_shape w c.Environment api c.Version c.TenantID c.ClientID c.ClientCertPath c.ClientCertPassword
  constructor
  · rcases hshape with ⟨e, heq⟩ | ⟨a, heq⟩ <;>
      simp [Config.NewAuthorizer, certSelection, heq, hEnable, hTenant, hClient, hPath]
  · intro es ec s
    rcases hshape with ⟨e, heq⟩ | ⟨a, heq⟩ <;>
      simp [Config.NewAuthorizer, certSelection, heq, hEnable, hTenant, hClient, hPath]

theorem spec_C2 (w : World) (c : Config) (api : Api) (e : String)
    (hEnable : c.EnableClientCertAuth = true)
    (hTenant : trimSpace c.TenantID ≠ "")
    (hClient : trimSpace c.ClientID ≠ "")
    (hPath : trimSpace c.ClientCertPath ≠ "")
    (hFail : NewClientCertificateAuthorizer w c.Environment api c.Version c.TenantID c.ClientID c.ClientCertPath c.ClientCertPassword = (none, some e)) :
    Config.NewAuthorizer w c api =
      (none, some ("could not configure ClientCertificate Authorizer: " ++ e)) ∧
    ∀ (env : Environment) (ver : TokenVersion) (t cid secret : String),
      (NewClientSecretAuthorizer env api ver t cid secret).2 = none := by
  constructor
  · simp [Config.NewAuthorizer, hFail, hEnable, hTenant, hClient, hPath]
  · intro env ver t cid secret; rfl

theorem spec_C5 (w : World) (c : Config) (api : Api)
    (hCert : ¬ (c.EnableClientCertAuth = true ∧ trimSpace c.TenantID ≠ "" ∧
      trimSpace c.ClientID ≠ "" ∧ trimSpace c.ClientCertPath ≠ ""))
    (hSecret : ¬ (c.EnableClientSecretAuth = true ∧ trimSpace c.TenantID ≠ "" ∧
      trimSpace c.ClientID ≠ "" ∧ trimSpace c.ClientSecret ≠ ""))
    (hCli : c.EnableAzureCliToken = false) :
    Config.NewAuthorizer w c api =
      (none, some "no Authorizer could be configured, please check your configuration") ∧
    ∀ (w' : World) (c' : Config) (api' : Api),
      (Config.NewAuthorizer w' c' api').1 = none ∨ (Config.NewAuthorizer w' c' api').2 = none := by
  constructor
  · unfold Config.NewAuthorizer Config.authorizerTail
    rw [if_neg hCert, if_neg hSecret]
    simp [hCli]
  · intro w' c' api'
    exact newAuthorizer_one_none w' c' api'

theorem spec_C6 (w : World) (c : Config) (api : Api)
    (hEnable : c.EnableClientCertAuth = true)
    (hBlank : trimSpace c.TenantID = "" ∨ trimSpace c.ClientID = "" ∨ trimSpace c.ClientCertPath = "") :
    Config.NewAuthorizer w c api = Config.authorizerTail w.newAzureCliConfig c api ∧
    ∀ w' : World, w'.newAzureCliConfig = w.newAzureCliConfig →
      Config.NewAuthorizer w' c api = Config.NewAuthorizer w c api := by
  have hcond : ¬ (c.EnableClientCertAuth = true ∧ trimSpace c.TenantID ≠ "" ∧
      trimSpace c.ClientID ≠ "" ∧ trimSpace c.ClientCertPath ≠ "") := by
    rintro ⟨-, h2, h3, h4⟩
    rcases hBlank with hb | hb | hb
    exacts [h2 hb, h3 hb, h4 hb]
  constructor
  · unfold Config.NewAuthorizer
    rw [if_neg hcond]
  · intro w' hw
    unfold Config.NewAuthorizer
    rw [if_neg hcond, if_neg hcond, hw]

/-- C7: certificate-bundle decoding on the three oracle outcomes: a decode
failure (wrong password / corrupt container) yields the DecodeError
wrapper, a non-RSA key yields the unsupported-key error, and a successful
RSA decode yields an adapter carrying both (non-empty) key and certificate
bytes; whenever an error is returned no adapter is constructed. -/
theorem spec_C7 (w : World) (env : Environment) (api : Api) (ver : TokenVersion)
    (t cid path pass : String) (pfx : List Nat) (e : String) (d : Pkcs12Decoded) :
    (w.readFile path = Except.ok pfx → w.pkcs12Decode pfx pass = Except.error e →
      NewClientCertificateAuthorizer w env api ver t cid path pass =
        (none, some ("could not decode pkcs12 credential store: " ++ e))) ∧
    (w.readFile path = Except.ok pfx → w.pkcs12Decode pfx pass = Except.ok d →
      d.key = Pkcs12Key.nonRsa →
      NewClientCertificateAuthorizer w env api ver t cid path pass =
        (none, some ("unsupported non-rsa key was found in pkcs12 store \"" ++ path ++ "\""))) ∧
    (∀ priv : RsaKey, w.readFile path = Except.ok pfx → w.pkcs12Decode pfx pass = Except.ok d →
      d.key = Pkcs12Key.rsa priv →
      w.marshalPKCS1PrivateKey priv ≠ [] → d.certRaw ≠ [] →
      ∃ conf : MicrosoftConfig,
        NewClientCertificateAuthorizer w env api ver t cid path pass =
          (some (Authorizer.microsoft conf AuthType.AuthTypeAssertion), none) ∧
        conf.PrivateKey ≠ [] ∧ conf.Certificate ≠ []) ∧
    (∀ msg, (NewClientCertificateAuthorizer w env api ver t cid path pass).2 = some msg →
      (NewClientCertificateAuthorizer w env api ver t cid path pass).1 = none) := by
  refine ⟨?_, ?_, ?_, ?_⟩
  · intro hr hd
    simp [NewClientCertificateAuthorizer, hr, hd]
  · intro hr hd hk
    simp [NewClientCertificateAuthorizer, hr, hd, hk]
  · intro priv hr hd hk hm hc
    refine ⟨{ ClientID := cid
              PrivateKey := w.marshalPKCS1PrivateKey priv
              Certificate := d.certRaw
              Scopes := scopes env api
              TokenURL := endpoint env.AzureADEndpoint t ver
              Resource := if ver = TokenVersion.TokenVersion1 then resource env api else "" },
      ?_, hm, hc⟩
    simp [NewClientCertificateAuthorizer, hr, hd, hk]
  · intro msg hmsg
    rcases cert_result_shape w env api ver t cid path pass with ⟨e2, heq⟩ | ⟨a, heq⟩
    · rw [heq]
    · rw [heq] at hmsg
      simp at hmsg

/-- Concrete oracle world for exercising the certificate decoder: the
bundle at "nonrsa.pfx" contains a non-RSA key, any other path an RSA key;
only the password "right" decodes. -/
def w7 : World :=
  { readFile := fun p => if p = "nonrsa.pfx" then Except.ok [9] else Except.ok [1]
    pkcs12Decode := fun pfx pass =>
      if pass = "right" then
        (if pfx = [9] then Except.ok ⟨Pkcs12Key.nonRsa, [2]⟩
         else Except.ok ⟨Pkcs12Key.rsa ⟨0⟩, [2]⟩)
      else Except.error "wrong password"
    marshalPKCS1PrivateKey := fun _ => [4]
    newAzureCliConfig := fun a t => Except.ok ⟨a, t⟩ }

/-- Concrete environment used by the C7 witness. -/
def env7 : Environment :=
  { AzureADEndpoint := "https://login.example"
    MsGraph := ⟨"https://graph.example"⟩
    AadGraph := ⟨"https://aadgraph.example"⟩ }

theorem spec_C7_witness :
    NewClientCertificateAuthorizer w7 env7 Api.MsGraph TokenVersion.TokenVersion2 "t" "c" "a.pfx" "bad" =
      (none, some "could not decode pkcs12 credential store: wrong password") ∧
    NewClientCertificateAuthorizer w7 env7 Api.MsGraph TokenVersion.TokenVersion2 "t" "c" "nonrsa.pfx" "right" =
      (none, some "unsupported non-rsa key was found in pkcs12 store \"nonrsa.pfx\"") ∧
    (∃ conf : MicrosoftConfig,
      NewClientCertificateAuthorizer w7 env7 Api.MsGraph TokenVersion.TokenVersion2 "t" "c" "a.pfx" "right" =
        (some (Authorizer.microsoft conf AuthType.AuthTypeAssertion), none) ∧
      conf.PrivateKey ≠ [] ∧ conf.Certificate ≠ []) :=
  ⟨(spec_C7 w7 env7 Api.MsGraph TokenVersion.TokenVersion2 "t" "c" "a.pfx" "bad" [1]
      "wrong password" ⟨Pkcs12Key.nonRsa, []⟩).1 rfl rfl,
   (spec_C7 w7 env7 Api.MsGraph TokenVersion.TokenVersion2 "t" "c" "nonrsa.pfx" "right" [9]
      "" ⟨Pkcs12Key.nonRsa, [2]⟩).2.1 rfl rfl rfl,
   (spec_C7 w7 env7 Api.MsGraph TokenVersion.TokenVersion2 "t" "c" "a.pfx" "right" [1]
      "" ⟨Pkcs12Key.rsa ⟨0⟩, [2]⟩).2.2.1 ⟨0⟩ rfl rfl rfl (by decide) (by decide)⟩

/-- Concrete oracle world in which every bundle decodes with a wrong
password: used to exhibit the shape of the decode-failure message. -/
def w9 : World :=
  { readFile := fun _ => Except.ok [7]
    pkcs12Decode := fun _ _ => Except.error "wrong password"
    marshalPKCS1PrivateKey := fun _ => [1]
    newAzureCliConfig := fun a t => Except.ok ⟨a, t⟩ }

/-- Concrete environment used by the C9 theorems. -/
def env9 : Environment :=
  { AzureADEndpoint := "https://login.example"
    MsGraph := ⟨"https://graph.example"⟩
    AadGraph := ⟨"https://aadgraph.example"⟩ }

/-- C9 counterexample: a certificate-parsing (decode) failure whose wrapped
error message does not contain the offending bundle path "z.pfx" — the
decode wrapper interpolates only the collaborator error text, not the
path. -/
theorem spec_C9_counterexample :
    (NewClientCertificateAuthorizer w9 env9 Api.MsGraph TokenVersion.TokenVersion2
        "t" "c" "z.pfx" "hunter2").2 =
      some "could not decode pkcs12 credential store: wrong password" ∧
    ¬ ("z.pfx".toList <:+: "could not decode pkcs12 credential store: wrong password".toList) :=
  ⟨rfl, by decide⟩

/-- C9 amended: every error message produced during certificate-authorizer
construction is one of three fixed templates — the file-read and
unsupported-key templates interpolate the bundle path, the decode-failure
template interpolates only the collaborator's error text — and none of the
templates interpolates the certificate password. -/
theorem spec_C9_amended (w : World) (env : Environment) (api : Api) (ver : TokenVersion)
    (t cid path pass m : String)
    (h : (NewClientCertificateAuthorizer w env api ver t cid path pass).2 = some m) :
    (∃ e, w.readFile path = Except.error e ∧
      m = "could not read pkcs12 store at \"" ++ path ++ "\": " ++ e) ∨
    (∃ pfx e, w.readFile path = Except.ok pfx ∧ w.pkcs12Decode pfx pass = Except.error e ∧
      m = "could not decode pkcs12 credential store: " ++ e) ∨
    (∃ pfx d, w.readFile path = Except.ok pfx ∧ w.pkcs12Decode pfx pass = Except.ok d ∧
      d.key = Pkcs12Key.nonRsa ∧
      m = "unsupported non-rsa key was found in pkcs12 store \"" ++ path ++ "\"") := by
  cases hr : w.readFile path with
  | error e =>
    simp [NewClientCertificateAuthorizer, hr] at h
    exact Or.inl ⟨e, rfl, h.symm⟩
  | ok pfx =>
    cases hd : w.pkcs12Decode pfx pass with
    | error e =>
      simp [NewClientCertificateAuthorizer, hr, hd] at h
      exact Or.inr (Or.inl ⟨pfx, e, rfl, hd, h.symm⟩)
    | ok d =>
      cases hk : d.key with
      | nonRsa =>
        simp [NewClientCertificateAuthorizer, hr, hd, hk] at h
        exact Or.inr (Or.inr ⟨pfx, d, rfl, hd, hk, h.symm⟩)
      | rsa priv =>
        simp [NewClientCertificateAuthorizer, hr, hd, hk] at h

theorem spec_C9_amended_witness :
    (NewClientCertificateAuthorizer w9 env9 Api.MsGraph TokenVersion.TokenVersion2
        "t" "c" "z.pfx" "hunter2").2 =
      some "could not decode pkcs12 credential store: wrong password" ∧
    ((∃ e, w9.readFile "z.pfx" = Except.error e ∧
        "could not decode pkcs12 credential store: wrong password" =
          "could not read pkcs12 store at \"" ++ "z.pfx" ++ "\": " ++ e) ∨
      (∃ pfx e, w9.readFile "z.pfx" = Except.ok pfx ∧
        w9.pkcs12Decode pfx "hunter2" = Except.error e ∧
        "could not decode pkcs12 credential store: wrong password" =
          "could not decode pkcs12 credential store: " ++ e) ∨
      (∃ pfx d, w9.readFile "z.pfx" = Except.ok pfx ∧
        w9.pkcs12Decode pfx "hunter2" = Except.ok d ∧
        d.key = Pkcs12Key.nonRsa ∧
        "could not decode pkcs12 credential store: wrong password" =
          "unsupported non-rsa key was found in pkcs12 store \"" ++ "z.pfx" ++ "\"")) :=
  ⟨rfl, spec_C9_amended w9 env9 Api.MsGraph TokenVersion.TokenVersion2 "t" "c" "z.pfx" "hunter2"
    "could not decode pkcs12 credential store: wrong password" rfl⟩

/-- Concrete environment used by the selector witnesses. -/
def env1 : Environment :=
  { AzureADEndpoint := "https://login.example"
    MsGraph := ⟨"https://graph.example"⟩
    AadGraph := ⟨"https://aadgraph.example"⟩ }

/-- Oracle world in which the certificate bundle reads and decodes to an
RSA key, and the CLI is available. -/
def w1 : World :=
  { readFile := fun _ => Except.ok [1]
    pkcs12Decode := fun _ _ => Except.ok ⟨Pkcs12Key.rsa ⟨0⟩, [2]⟩
    marshalPKCS1PrivateKey := fun _ => [3]
    newAzureCliConfig := fun a t => Except.ok ⟨a, t⟩ }

/-- A configuration with all three methods enabled and fully specified. -/
def cfg1 : Config :=
  { Environment := env1
    Version := TokenVersion.TokenVersion2
    TenantID := "tenant-id"
    ClientID := "client-id"
    EnableAzureCliToken := true
    EnableMsiAuth := false
    MsiEndpoint := ""
    EnableClientCertAuth := true
    ClientCertPath := "cert.pfx"
    ClientCertPassword := "pw"
    EnableClientSecretAuth := true
    ClientSecret := "secret" }

theorem spec_C1_witness :
    trimSpace cfg1.TenantID ≠ "" ∧
    (Config.NewAuthorizer w1 cfg1 Api.MsGraph = certSelection w1 cfg1 Api.MsGraph ∧
      ∀ (enableSecret enableCli : Bool) (secret : String),
        Config.NewAuthorizer w1
          { cfg1 with EnableClientSecretAuth := enableSecret, ClientSecret := secret,
                      EnableAzureCliToken := enableCli } Api.MsGraph =
          certSelection w1 cfg1 Api.MsGraph) :=
  ⟨by decide, spec_C1 w1 cfg1 Api.MsGraph rfl (by decide) (by decide) (by decide)⟩

/-- Concrete environment used by the C2 witness. -/
def env2 : Environment :=
  { AzureADEndpoint := "https://login.example"
    MsGraph := ⟨"https://graph.example"⟩
    AadGraph := ⟨"https://aadgraph.example"⟩ }

/-- Oracle world in which reading the certificate bundle fails. -/
def w2 : World :=
  { readFile := fun _ => Except.error "boom"
    pkcs12Decode := fun _ _ => Except.error "unreachable"
    marshalPKCS1PrivateKey := fun _ => [3]
    newAzureCliConfig := fun a t => Except.ok ⟨a, t⟩ }

/-- All three methods enabled and specified, so that a certificate failure
could in principle fall through — the point of C2 is that it does not. -/
def cfg2 : Config :=
  { Environment := env2
    Version := TokenVersion.TokenVersion2
    TenantID := "tenant-id"
    ClientID := "client-id"
    EnableAzureCliToken := true
    EnableMsiAuth := false
    MsiEndpoint := ""
    EnableClientCertAuth := true
    ClientCertPath := "cert.pfx"
    ClientCertPassword := "pw"
    EnableClientSecretAuth := true
    ClientSecret := "secret" }

theorem spec_C2_witness :
    NewClientCertificateAuthorizer w2 cfg2.Environment Api.MsGraph cfg2.Version cfg2.TenantID
        cfg2.ClientID cfg2.ClientCertPath cfg2.ClientCertPassword =
      (none, some "could not read pkcs12 store at \"cert.pfx\": boom") ∧
    (Config.NewAuthorizer w2 cfg2 Api.MsGraph =
      (none, some ("could not configure ClientCertificate Authorizer: " ++
        "could not read pkcs12 store at \"cert.pfx\": boom")) ∧
    ∀ (env : Environment) (ver : TokenVersion) (t cid secret : String),
      (NewClientSecretAuthorizer env Api.MsGraph ver t cid secret).2 = none) :=
  ⟨rfl, spec_C2 w2 cfg2 Api.MsGraph "could not read pkcs12 store at \"cert.pfx\": boom"
    rfl (by decide) (by decide) (by decide) rfl⟩

/-- Oracle world for the no-method-configured witness. -/
def w5 : World :=
  { readFile := fun _ => Except.ok [1]
    pkcs12Decode := fun _ _ => Except.ok ⟨Pkcs12Key.rsa ⟨0⟩, [2]⟩
    marshalPKCS1PrivateKey := fun _ => [3]
    newAzureCliConfig := fun a t => Except.ok ⟨a, t⟩ }

/-- A configuration in which no method is both enabled and specified:
certificate auth is enabled but its path is blank, secret auth is
disabled, CLI auth is disabled. -/
def cfg5 : Config :=
  { Environment := env1
    Version := TokenVersion.TokenVersion2
    TenantID := "tenant-id"
    ClientID := "client-id"
    EnableAzureCliToken := false
    EnableMsiAuth := false
    MsiEndpoint := ""
    EnableClientCertAuth := true
    ClientCertPath := "   "
    ClientCertPassword := ""
    EnableClientSecretAuth := false
    ClientSecret := "secret" }

theorem spec_C5_witness :
    cfg5.EnableAzureCliToken = false ∧
    (Config.NewAuthorizer w5 cfg5 Api.MsGraph =
      (none, some "no Authorizer could be configured, please check your configuration") ∧
    ∀ (w0 : World) (c0 : Config) (api0 : Api),
      (Config.NewAuthorizer w0 c0 api0).1 = none ∨ (Config.NewAuthorizer w0 c0 api0).2 = none) :=
  ⟨rfl, spec_C5 w5 cfg5 Api.MsGraph (by decide) (by decide) rfl⟩

/-- Oracle world for the blank-certificate-field witness. -/
def w6 : World :=
  { readFile := fun _ => Except.ok [1]
    pkcs12Decode := fun _ _ => Except.ok ⟨Pkcs12Key.rsa ⟨0⟩, [2]⟩
    marshalPKCS1PrivateKey := fun _ => [3]
    newAzureCliConfig := fun a t => Except.ok ⟨a, t⟩ }

/-- Certificate auth enabled but with a whitespace-only tenant, CLI auth
enabled as the next eligible method. -/
def cfg6 : Config :=
  { Environment := env1
    Version := TokenVersion.TokenVersion2
    TenantID := "   "
    ClientID := "client-id"
    EnableAzureCliToken := true
    EnableMsiAuth := false
    MsiEndpoint := ""
    EnableClientCertAuth := true
    ClientCertPath := "cert.pfx"
    ClientCertPassword := "pw"
    EnableClientSecretAuth := false
    ClientSecret := "" }

theorem spec_C6_witness :
    trimSpace cfg6.TenantID = "" ∧
    (Config.NewAuthorizer w6 cfg6 Api.MsGraph =
        Config.authorizerTail w6.newAzureCliConfig cfg6 Api.MsGraph ∧
      ∀ w0 : World, w0.newAzureCliConfig = w6.newAzureCliConfig →
        Config.NewAuthorizer w0 cfg6 Api.MsGraph = Config.NewAuthorizer w6 cfg6 Api.MsGraph) :=
  ⟨by decide, spec_C6 w6 cfg6 Api.MsGraph rfl (Or.inl (by decide))⟩

end Hamilton
